import Mathlib

/-
Verification of the module-graph builder (src/graph.rs) against its
specification.  The Rust code is shallowly embedded: every function below
mirrors a function (or a clearly delimited piece of one) of graph.rs; the
external collaborators (parser, specifier resolution, loader, resolver,
locker, media-type classification) are parameters, exactly as the spec
treats them as external interfaces.  Rust HashMaps are embedded as
association lists whose insert replaces the value of an existing key.
-/

namespace DenoGraph

set_option autoImplicit false

/-! ## Association lists (embedding of std::collections::HashMap) -/

def alInsert {K V : Type} [DecidableEq K] (k : K) (v : V) : List (K × V) → List (K × V)
  | [] => [(k, v)]
  | p :: rest => if k = p.1 then (k, v) :: rest else p :: alInsert k v rest

def alLookup {K V : Type} [DecidableEq K] (k : K) : List (K × V) → Option V
  | [] => Option.none
  | p :: rest => if k = p.1 then Option.some p.2 else alLookup k rest

/-- HashMap::contains_key -/
def alContains {K V : Type} [DecidableEq K] (k : K) (m : List (K × V)) : Bool :=
  (alLookup k m).isSome

/-! ## Data model (graph.rs lines 18-136 and the external value types) -/

/-- External ModuleSpecifier value type: an absolute identifier with a scheme
(accessed by the code only through scheme(), equality, clone and hashing). -/
structure ModuleSpecifier where
  scheme : String
  path : String
deriving DecidableEq, Repr

/-- External ast::Range (an opaque source range for the code under test). -/
structure Range where
  startPos : Nat
  endPos : Nat
deriving DecidableEq, Repr

instance : Inhabited Range := ⟨⟨0, 0⟩⟩

/-- ast::Span: referrer specifier plus source range (graph.rs lines 257-260). -/
structure Span where
  specifier : ModuleSpecifier
  range : Range
deriving DecidableEq, Repr

/-- External ast::Diagnostic, opaque to graph.rs. -/
abbrev Diagnostic := String

/-- External SpecifierError, opaque to graph.rs. -/
abbrev SpecifierError := String

/-- ResolutionError (graph.rs lines 53-59); anyhow errors embedded as strings. -/
inductive ResolutionError where
  | invalidDowngrade
  | invalidLocalImport
  | resolverError (err : String)
  | invalidSpecifier (err : SpecifierError)
deriving DecidableEq, Repr

/-- Resolved (graph.rs lines 75-80). -/
inductive Resolved where
  | specifier (target : ModuleSpecifier) (span : Span)
  | err (error : ResolutionError) (span : Span)
  | none
deriving DecidableEq, Repr

instance : Inhabited Resolved := ⟨Resolved.none⟩

/-- Resolved::is_none (graph.rs lines 89-91): true only on the None variant. -/
def Resolved.is_none : Resolved → Bool
  | Resolved.none => true
  | _ => false

/-- Dependency (graph.rs lines 94-99); Default gives None/None/false. -/
structure Dependency where
  maybe_code : Resolved
  maybe_type : Resolved
  is_dynamic : Bool
deriving DecidableEq, Repr

instance : Inhabited Dependency := ⟨⟨Resolved.none, Resolved.none, false⟩⟩

/-- External MediaType; graph.rs only ever compares against JavaScript/Jsx. -/
inductive MediaType where
  | javaScript
  | jsx
  | typeScript
  | tsx
  | dts
  | unknown
deriving DecidableEq, Repr

/-- Module (graph.rs lines 101-108); dependencies keyed by literal import string. -/
structure Module where
  dependencies : List (String × Dependency)
  maybe_types_dependency : Option (String × Resolved)
  media_type : MediaType
  source : String
  specifier : ModuleSpecifier
deriving DecidableEq, Repr

/-- Module::new (graph.rs lines 110-120). -/
def Module.new (specifier : ModuleSpecifier) (source : String) : Module :=
  ⟨[], Option.none, MediaType.unknown, source, specifier⟩

/-- ModuleGraphError (graph.rs lines 18-23); anyhow errors embedded as strings. -/
inductive ModuleGraphError where
  | loadingErr (err : String)
  | parseErr (diagnostic : Diagnostic)
  | invalidSource (specifier : ModuleSpecifier)
deriving DecidableEq, Repr

/-- ModuleSlot (graph.rs lines 122-128). -/
inductive ModuleSlot where
  | module (m : Module)
  | err (e : ModuleGraphError)
  | missing
  | pending
deriving DecidableEq, Repr

/-- ModuleGraph (graph.rs lines 130-136); the locker collaborator is passed to
lock() explicitly below rather than stored (it is a shared callback). -/
structure ModuleGraph where
  root : ModuleSpecifier
  modules : List (ModuleSpecifier × ModuleSlot)
  redirects : List (ModuleSpecifier × ModuleSpecifier)
deriving DecidableEq, Repr

/-! ## External parser interface (the ast module) -/

/-- ast::TypeScriptReference as produced by analyze_ts_references. -/
inductive TypeScriptReference where
  | path (specifier : String) (range : Range)
  | types (specifier : String) (range : Range)
deriving DecidableEq, Repr

/-- A dependency descriptor from analyze_dependencies; analyze_deno_types for
the descriptor is embedded as the deno_types field (it is opaque external
parser output keyed by the descriptor). -/
structure DependencyDescriptor where
  specifier : String
  specifier_span : Range
  is_dynamic : Bool
  deno_types : Option (String × Range)
deriving DecidableEq, Repr

/-- External ParsedModule: the two analysis results graph.rs consumes. -/
structure ParsedModule where
  ts_references : List TypeScriptReference
  descriptors : List DependencyDescriptor
deriving DecidableEq, Repr

/-- range_from_span: opaque external conversion, identity in the embedding
(graph.rs treats its output as an opaque Range). -/
def ParsedModule.range_from_span (_pm : ParsedModule) (s : Range) : Range := s

/-- LoadResponse from the Loader collaborator (source.rs interface). -/
structure LoadResponse where
  specifier : ModuleSpecifier
  maybe_headers : Option (List (String × String))
  content : String
deriving DecidableEq, Repr

/-- A completed load: Result<Option<LoadResponse>, anyhow::Error>. -/
abbrev LoadResult := Except String (Option LoadResponse)

instance {ε α : Type} [DecidableEq ε] [DecidableEq α] : DecidableEq (Except ε α) := by
  intro a b
  cases a <;> cases b
  case error.error e e' =>
    exact if h : e = e' then Decidable.isTrue (by rw [h])
      else Decidable.isFalse (by intro hc; cases hc; exact h rfl)
  case error.ok e a' => exact Decidable.isFalse (by intro hc; cases hc)
  case ok.error a' e => exact Decidable.isFalse (by intro hc; cases hc)
  case ok.ok x y =>
    exact if h : x = y then Decidable.isTrue (by rw [h])
      else Decidable.isFalse (by intro hc; cases hc; exact h rfl)

/-- The bundle of external collaborators used by the Builder. -/
structure Externals where
  parse : ModuleSpecifier → String → MediaType → Except Diagnostic ParsedModule
  resolveImport : String → ModuleSpecifier → Except SpecifierError ModuleSpecifier
  maybeResolver : Option (String → ModuleSpecifier → Except String ModuleSpecifier)
  loader : ModuleSpecifier → Bool → LoadResult
  mediaFromContentType : ModuleSpecifier → String → MediaType
  mediaFrom : ModuleSpecifier → MediaType

/-! ## Builder state (graph.rs lines 172-195)

The FuturesUnordered set of pending loads is embedded as a FIFO queue of
completed results (the completion order is unspecified in the source; the
embedding fixes one admissible order).  loadLog is ghost instrumentation
recording every loader.load call issued at graph.rs line 233. -/

structure BuildState where
  graph : ModuleGraph
  pendingQ : List (ModuleSpecifier × LoadResult)
  loadLog : List (ModuleSpecifier × Bool)
deriving DecidableEq, Repr

def initBuildState (root : ModuleSpecifier) : BuildState :=
  ⟨⟨root, [], []⟩, [], []⟩

/-- Builder::load (graph.rs lines 226-236): no-op when a slot already exists,
otherwise reserve a Pending slot and start the load. -/
def Builder.load (ext : Externals) (st : BuildState) (specifier : ModuleSpecifier)
    (is_dynamic : Bool) : BuildState :=
  if alContains specifier st.graph.modules = true then st
  else
    { st with
      graph := { st.graph with
        modules := alInsert specifier ModuleSlot.pending st.graph.modules }
      pendingQ := st.pendingQ ++ [(specifier, ext.loader specifier is_dynamic)]
      loadLog := st.loadLog ++ [(specifier, is_dynamic)] }

/-- The policy stage of Builder::resolve (graph.rs lines 257-277), applied to
the outcome of the resolver / resolve_import stage. -/
def resolveStage2 (remapped : Bool) (resolved_specifier : Except ResolutionError ModuleSpecifier)
    (referrer : ModuleSpecifier) (range : Range) : Resolved :=
  match resolved_specifier with
  | Except.ok specifier =>
    if referrer.scheme = "https" ∧ specifier.scheme = "http" then
      Resolved.err ResolutionError.invalidDowngrade ⟨referrer, range⟩
    else if (referrer.scheme = "https" ∨ referrer.scheme = "http") ∧
        ¬(specifier.scheme = "https" ∨ specifier.scheme = "http") ∧ remapped = false then
      Resolved.err ResolutionError.invalidLocalImport ⟨referrer, range⟩
    else
      Resolved.specifier specifier ⟨referrer, range⟩
  | Except.error err => Resolved.err err ⟨referrer, range⟩

/-- Builder::resolve (graph.rs lines 240-278).  It takes &mut self in Rust but
never mutates builder state, so it is a pure function of the collaborators. -/
def Builder.resolve (ext : Externals) (specifier : String) (referrer : ModuleSpecifier)
    (range : Range) : Resolved :=
  match ext.maybeResolver with
  | Option.some resolver =>
    resolveStage2 true ((resolver specifier referrer).mapError ResolutionError.resolverError)
      referrer range
  | Option.none =>
    resolveStage2 false ((ext.resolveImport specifier referrer).mapError ResolutionError.invalidSpecifier)
      referrer range

/-- Builder::resolve_load (graph.rs lines 282-294). -/
def Builder.resolveLoad (ext : Externals) (st : BuildState) (specifier : String)
    (referrer : ModuleSpecifier) (range : Range) (is_dynamic : Bool) : BuildState × Resolved :=
  match Builder.resolve ext specifier referrer range with
  | Resolved.specifier s span => (Builder.load ext st s is_dynamic, Resolved.specifier s span)
  | r => (st, r)

/-! ## The Visit step (graph.rs lines 297-410) -/

/-- Pure module update for a Path triple-slash reference (graph.rs 332-341):
entry(specifier).or_default() then dep.maybe_code = resolved. -/
def tsPathUpdate (module : Module) (specifier : String) (resolved : Resolved) : Module :=
  { module with
    dependencies := alInsert specifier
      { (alLookup specifier module.dependencies).getD default with maybe_code := resolved }
      module.dependencies }

/-- Pure module update for a Types triple-slash reference (graph.rs 342-358). -/
def tsTypesUpdate (module : Module) (specifier : String) (resolved : Resolved) : Module :=
  if module.media_type = MediaType.javaScript ∨ module.media_type = MediaType.jsx then
    { module with maybe_types_dependency := Option.some (specifier, resolved) }
  else
    { module with
      dependencies := alInsert specifier
        { (alLookup specifier module.dependencies).getD default with maybe_type := resolved }
        module.dependencies }

/-- One iteration of the triple-slash reference loop (graph.rs lines 330-360). -/
def visitTsReference (ext : Externals) (acc : BuildState × Module)
    (reference : TypeScriptReference) : BuildState × Module :=
  match reference with
  | TypeScriptReference.path specifier range =>
    ((Builder.resolveLoad ext acc.1 specifier acc.2.specifier range false).1,
     tsPathUpdate acc.2 specifier
       (Builder.resolveLoad ext acc.1 specifier acc.2.specifier range false).2)
  | TypeScriptReference.types specifier range =>
    ((Builder.resolveLoad ext acc.1 specifier acc.2.specifier range false).1,
     tsTypesUpdate acc.2 specifier
       (Builder.resolveLoad ext acc.1 specifier acc.2.specifier range false).2)

/-- The X-TypeScript-Types header analysis (graph.rs lines 362-376): consulted
only when maybe_types_dependency is still empty. -/
def visitTypesHeader (ext : Externals) (maybe_headers : Option (List (String × String)))
    (acc : BuildState × Module) : BuildState × Module :=
  match acc.2.maybe_types_dependency, maybe_headers with
  | Option.none, Option.some headers =>
    match alLookup "x-typescript-types" headers with
    | Option.some types_header =>
      ((Builder.resolveLoad ext acc.1 types_header acc.2.specifier (default : Range) false).1,
       { acc.2 with
         maybe_types_dependency := Option.some (types_header,
           (Builder.resolveLoad ext acc.1 types_header acc.2.specifier (default : Range) false).2) })
    | Option.none => acc
  | _, _ => acc

/-- analyze_deno_types + resolve_load for one descriptor (graph.rs 392-398). -/
def denoTypesResolve (ext : Externals) (st : BuildState) (referrer : ModuleSpecifier)
    (desc : DependencyDescriptor) : BuildState × Resolved :=
  match desc.deno_types with
  | Option.some sr => Builder.resolveLoad ext st sr.1 referrer sr.2 desc.is_dynamic
  | Option.none => (st, Resolved.none)

/-- Pure module update for one ES dependency descriptor (graph.rs 380-402):
entry().or_default(), dep.maybe_code = resolved, and dep.maybe_type only
written when it is still None.  Note the source never assigns
dep.is_dynamic, so it keeps the Default value false. -/
def descUpdate (module : Module) (desc : DependencyDescriptor) (resolved_code : Resolved)
    (maybe_type : Resolved) : Module :=
  let dep0 := (alLookup desc.specifier module.dependencies).getD default
  let deps0 := alInsert desc.specifier dep0 module.dependencies
  let dep1 := { dep0 with maybe_code := resolved_code }
  let dep2 := if Resolved.is_none dep1.maybe_type = true then
                { dep1 with maybe_type := maybe_type }
              else dep1
  { module with dependencies := alInsert desc.specifier dep2 deps0 }

/-- One iteration of the ES dependency loop (graph.rs lines 380-402).  The
deno-types resolve_load runs unconditionally (before the is_none guard),
exactly as in the source. -/
def visitDescriptor (ext : Externals) (pm : ParsedModule) (acc : BuildState × Module)
    (desc : DependencyDescriptor) : BuildState × Module :=
  ((denoTypesResolve ext
      (Builder.resolveLoad ext acc.1 desc.specifier acc.2.specifier
        (pm.range_from_span desc.specifier_span) desc.is_dynamic).1
      acc.2.specifier desc).1,
   descUpdate acc.2 desc
     (Builder.resolveLoad ext acc.1 desc.specifier acc.2.specifier
       (pm.range_from_span desc.specifier_span) desc.is_dynamic).2
     (denoTypesResolve ext
       (Builder.resolveLoad ext acc.1 desc.specifier acc.2.specifier
         (pm.range_from_span desc.specifier_span) desc.is_dynamic).1
       acc.2.specifier desc).2)

/-- The parse-success analysis of visit (graph.rs lines 328-405): the three
extraction mechanisms in their fixed order. -/
def Builder.visitModule (ext : Externals) (st : BuildState)
    (maybe_headers : Option (List (String × String))) (module0 : Module)
    (pm : ParsedModule) : BuildState × Module :=
  List.foldl (visitDescriptor ext pm)
    (visitTypesHeader ext maybe_headers
      (List.foldl (visitTsReference ext) (st, module0) pm.ts_references))
    pm.descriptors

/-- The redirect recording of visit (graph.rs lines 305-311). -/
def redirStep (st : BuildState) (requested_specifier : ModuleSpecifier)
    (response : LoadResponse) : BuildState :=
  if requested_specifier ≠ response.specifier then
    { st with graph := { st.graph with
        redirects := alInsert requested_specifier response.specifier st.graph.redirects } }
  else st

/-- The media-type classification of visit (graph.rs lines 313-323). -/
def visitMedia (ext : Externals) (response : LoadResponse) : MediaType :=
  match response.maybe_headers with
  | Option.some headers =>
    match alLookup "content-type" headers with
    | Option.some content_type => ext.mediaFromContentType response.specifier content_type
    | Option.none => ext.mediaFrom response.specifier
  | Option.none => ext.mediaFrom response.specifier

/-- Module::new plus the media-type assignment (graph.rs lines 313-323). -/
def initModule (ext : Externals) (response : LoadResponse) : Module :=
  { Module.new response.specifier response.content with media_type := visitMedia ext response }

/-- The ast::parse call of visit (graph.rs line 327) on the initialized module. -/
def parseOf (ext : Externals) (response : LoadResponse) : Except Diagnostic ParsedModule :=
  ext.parse (initModule ext response).specifier (initModule ext response).source
    (initModule ext response).media_type

/-- Builder::visit up to (but excluding) the final slot insertion of line 409:
returns the mutated builder state and the computed module_slot. -/
def Builder.visitCore (ext : Externals) (st : BuildState)
    (requested_specifier : ModuleSpecifier) (response : LoadResponse) :
    BuildState × ModuleSlot :=
  match parseOf ext response with
  | Except.ok parsed_module =>
    ((Builder.visitModule ext (redirStep st requested_specifier response)
        response.maybe_headers (initModule ext response) parsed_module).1,
     ModuleSlot.module
       (Builder.visitModule ext (redirStep st requested_specifier response)
         response.maybe_headers (initModule ext response) parsed_module).2)
  | Except.error diagnostic =>
    (redirStep st requested_specifier response,
     ModuleSlot.err (ModuleGraphError.parseErr diagnostic))

/-- HashMap::insert into graph.modules. -/
def installSlot (st : BuildState) (specifier : ModuleSpecifier) (slot : ModuleSlot) :
    BuildState :=
  { st with graph := { st.graph with
      modules := alInsert specifier slot st.graph.modules } }

/-- Builder::visit (graph.rs lines 297-410): the computed slot is installed at
the effective (response) specifier, line 409. -/
def Builder.visit (ext : Externals) (st : BuildState)
    (requested_specifier : ModuleSpecifier) (response : LoadResponse) : BuildState :=
  installSlot (Builder.visitCore ext st requested_specifier response).1
    response.specifier
    (Builder.visitCore ext st requested_specifier response).2

/-! ## The build loop (graph.rs lines 197-223) -/

/-- One dispatch of the loop body of Builder::build (graph.rs lines 202-216). -/
def Builder.buildStep (ext : Externals) (st : BuildState)
    (item : ModuleSpecifier × LoadResult) : BuildState :=
  match item.2 with
  | Except.ok (Option.some response) => Builder.visit ext st item.1 response
  | Except.ok Option.none => installSlot st item.1 ModuleSlot.missing
  | Except.error err => installSlot st item.1 (ModuleSlot.err (ModuleGraphError.loadingErr err))

/-- The awaiting loop of Builder::build: runs until the pending set is empty
(fuel bounds the number of iterations; the source's termination relies on
load's deduplication keeping the pending set finite). -/
def Builder.buildLoop (ext : Externals) : Nat → BuildState → BuildState
  | 0, st => st
  | Nat.succ fuel, st =>
    match st.pendingQ with
    | [] => st
    | item :: rest =>
      Builder.buildLoop ext fuel (Builder.buildStep ext { st with pendingQ := rest } item)

/-- Builder::build (graph.rs lines 197-223). -/
def Builder.build (ext : Externals) (root : ModuleSpecifier) (is_dynamic_root : Bool)
    (fuel : Nat) : BuildState :=
  Builder.buildLoop ext fuel (Builder.load ext (initBuildState root) root is_dynamic_root)

/-! ## ModuleGraph::lock (graph.rs lines 155-169) -/

/-- The iteration of lock() over the slot map, threading the locker's internal
state explicitly (the Rust locker is a shared mutable collaborator). -/
def lockLoop {σ : Type} (check_or_insert : σ → ModuleSpecifier → String → Bool × σ) :
    σ → List (ModuleSpecifier × ModuleSlot) → Except ModuleGraphError Unit
  | _, [] => Except.ok Unit.unit
  | locker_state, (_, ModuleSlot.module m) :: rest =>
    if (check_or_insert locker_state m.specifier m.source).1 = true then
      lockLoop check_or_insert (check_or_insert locker_state m.specifier m.source).2 rest
    else
      Except.error (ModuleGraphError.invalidSource m.specifier)
  | locker_state, _ :: rest => lockLoop check_or_insert locker_state rest

/-- ModuleGraph::lock (graph.rs lines 155-169); maybe_locker passed explicitly. -/
def ModuleGraph.lock {σ : Type} (g : ModuleGraph)
    (maybe_locker : Option ((σ → ModuleSpecifier → String → Bool × σ) × σ)) :
    Except ModuleGraphError Unit :=
  match maybe_locker with
  | Option.some locker => lockLoop locker.1 locker.2 g.modules
  | Option.none => Except.ok Unit.unit

/-! ## Spec-side definitions used for comparison statements -/

/-- The Module payloads of the Module slots of a slot map, in map order. -/
def modulesOf : List (ModuleSpecifier × ModuleSlot) → List Module
  | [] => []
  | (_, ModuleSlot.module m) :: rest => m :: modulesOf rest
  | _ :: rest => modulesOf rest

/-- Modelled from the spec: every Module slot passes the locker check, with the
locker state threaded in iteration order (spec section 4.4, all-pass). -/
def checkAll {σ : Type} (check_or_insert : σ → ModuleSpecifier → String → Bool × σ) :
    σ → List Module → Bool
  | _, [] => true
  | locker_state, m :: rest =>
    if (check_or_insert locker_state m.specifier m.source).1 = true then
      checkAll check_or_insert (check_or_insert locker_state m.specifier m.source).2 rest
    else false

/-- Modelled from the spec: the specifier of the first Module whose locker
check fails (spec section 4.4, first mismatch aborts). -/
def firstFailing {σ : Type} (check_or_insert : σ → ModuleSpecifier → String → Bool × σ) :
    σ → List Module → Option ModuleSpecifier
  | _, [] => Option.none
  | locker_state, m :: rest =>
    if (check_or_insert locker_state m.specifier m.source).1 = true then
      firstFailing check_or_insert (check_or_insert locker_state m.specifier m.source).2 rest
    else Option.some m.specifier

/-! ## Observation helpers used in claim statements -/

def isModuleOrParseErr : ModuleSlot → Bool
  | ModuleSlot.module _ => true
  | ModuleSlot.err (ModuleGraphError.parseErr _) => true
  | _ => false

def slotIsModule : Option ModuleSlot → Bool
  | Option.some (ModuleSlot.module _) => true
  | _ => false

/-- The dependency map of the Module slot at a specifier, if any. -/
def depsOf (st : BuildState) (s : ModuleSpecifier) : List (String × Dependency) :=
  match alLookup s st.graph.modules with
  | Option.some (ModuleSlot.module m) => m.dependencies
  | _ => []

/-- The source text of the Module slot at a specifier, if any. -/
def sourceAt (st : BuildState) (s : ModuleSpecifier) : Option String :=
  match alLookup s st.graph.modules with
  | Option.some (ModuleSlot.module m) => Option.some m.source
  | _ => Option.none

def depIsDynamic (deps : List (String × Dependency)) (k : String) : Option Bool :=
  (alLookup k deps).map Dependency.is_dynamic

def Resolved.isSpecifier : Resolved → Bool
  | Resolved.specifier _ _ => true
  | _ => false

def depCodeIsSpecifier (deps : List (String × Dependency)) (k : String) : Option Bool :=
  (alLookup k deps).map (fun d => Resolved.isSpecifier d.maybe_code)

/-- The load-dedup invariant: the issued-load log contains each specifier at
most once, and every specifier ever loaded has a slot. -/
def LoadInv (st : BuildState) : Prop :=
  (st.loadLog.map Prod.fst).Nodup ∧
  ∀ s, s ∈ st.loadLog.map Prod.fst → alContains s st.graph.modules = true

/-! ## Concrete collaborator instantiations used by scenario claims and
witnesses.  Each is a plain instantiation of the external interfaces. -/

def emptyParsed : ParsedModule := ⟨[], []⟩

def specA : ModuleSpecifier := ⟨"https", "a/mod.ts"⟩

def specRedir : ModuleSpecifier := ⟨"https", "a/redirected.ts"⟩

def specHttp : ModuleSpecifier := ⟨"http", "x/a.ts"⟩

def specFile : ModuleSpecifier := ⟨"file", "p/a.ts"⟩

def rg0 : Range := ⟨0, 0⟩

/-- A loader that answers the request for specA with an effective (redirected)
specifier specRedir; everything parses as an empty module. -/
def extRedirect : Externals where
  parse := fun _ _ _ => Except.ok emptyParsed
  resolveImport := fun _ _ => Except.error "unresolvable"
  maybeResolver := Option.none
  loader := fun s _ =>
    if s = specA then Except.ok (Option.some ⟨specRedir, Option.none, "R"⟩)
    else Except.error "missing"
  mediaFromContentType := fun _ _ => MediaType.unknown
  mediaFrom := fun _ => MediaType.unknown

def respRedirect : LoadResponse := ⟨specRedir, Option.none, "R"⟩

def graphRedirect : BuildState := Builder.build extRedirect specA false 5

/-- The builder state right after the root load of specA was enqueued. -/
def stBeforeVisit : BuildState := Builder.load extRedirect (initBuildState specA) specA false

/-- Default resolution that always lands on an insecure-remote target. -/
def extDowngrade : Externals where
  parse := fun _ _ _ => Except.ok emptyParsed
  resolveImport := fun _ _ => Except.ok specHttp
  maybeResolver := Option.none
  loader := fun _ _ => Except.error "missing"
  mediaFromContentType := fun _ _ => MediaType.unknown
  mediaFrom := fun _ => MediaType.unknown

/-- Default resolution that lands on a local-file target, no custom resolver. -/
def extLocalDefault : Externals where
  parse := fun _ _ _ => Except.ok emptyParsed
  resolveImport := fun _ _ => Except.ok specFile
  maybeResolver := Option.none
  loader := fun _ _ => Except.error "missing"
  mediaFromContentType := fun _ _ => MediaType.unknown
  mediaFrom := fun _ => MediaType.unknown

/-- A custom resolver that maps every import to a local-file target. -/
def extLocalResolver : Externals where
  parse := fun _ _ _ => Except.ok emptyParsed
  resolveImport := fun _ _ => Except.error "unused"
  maybeResolver := Option.some (fun _ _ => Except.ok specFile)
  loader := fun _ _ => Except.error "missing"
  mediaFromContentType := fun _ _ => MediaType.unknown
  mediaFrom := fun _ => MediaType.unknown

def specMod : ModuleSpecifier := ⟨"https", "a/mod.ts"⟩

def specB : ModuleSpecifier := ⟨"https", "a/b.ts"⟩

def specC : ModuleSpecifier := ⟨"https", "a/c.ts"⟩

def descB : DependencyDescriptor := ⟨"./b.ts", ⟨0, 0⟩, false, Option.none⟩

def descC : DependencyDescriptor := ⟨"./c.ts", ⟨1, 1⟩, true, Option.none⟩

/-- The spec's scenario: a root module with one static import of ./b.ts and
one dynamic import of ./c.ts. -/
def extScenario : Externals where
  parse := fun _ source _ =>
    if source = "MOD" then Except.ok ⟨[], [descB, descC]⟩ else Except.ok emptyParsed
  resolveImport := fun s r =>
    if s = "./b.ts" ∧ r = specMod then Except.ok specB
    else if s = "./c.ts" ∧ r = specMod then Except.ok specC
    else Except.error "cannot resolve"
  maybeResolver := Option.none
  loader := fun s _ =>
    if s = specMod then Except.ok (Option.some ⟨specMod, Option.none, "MOD"⟩)
    else if s = specB then Except.ok (Option.some ⟨specB, Option.none, "B"⟩)
    else if s = specC then Except.ok (Option.some ⟨specC, Option.none, "C"⟩)
    else Except.error "missing"
  mediaFromContentType := fun _ _ => MediaType.typeScript
  mediaFrom := fun _ => MediaType.typeScript

def graphScenario : BuildState := Builder.build extScenario specMod false 10

def specR : ModuleSpecifier := ⟨"https", "r/main.ts"⟩

def specX : ModuleSpecifier := ⟨"https", "r/x.ts"⟩

def specY : ModuleSpecifier := ⟨"https", "r/y.ts"⟩

/-- specX is loaded directly (content X1) and the load of specY redirects to
specX with different content X2: the same effective specifier is visited
twice within one build. -/
def extLastWrite : Externals where
  parse := fun _ source _ =>
    if source = "MAIN" then
      Except.ok ⟨[], [⟨"./x", ⟨0, 0⟩, false, Option.none⟩, ⟨"./y", ⟨1, 1⟩, false, Option.none⟩]⟩
    else Except.ok emptyParsed
  resolveImport := fun s r =>
    if s = "./x" ∧ r = specR then Except.ok specX
    else if s = "./y" ∧ r = specR then Except.ok specY
    else Except.error "cannot resolve"
  maybeResolver := Option.none
  loader := fun s _ =>
    if s = specR then Except.ok (Option.some ⟨specR, Option.none, "MAIN"⟩)
    else if s = specX then Except.ok (Option.some ⟨specX, Option.none, "X1"⟩)
    else if s = specY then Except.ok (Option.some ⟨specX, Option.none, "X2"⟩)
    else Except.error "missing"
  mediaFromContentType := fun _ _ => MediaType.typeScript
  mediaFrom := fun _ => MediaType.typeScript

/-- The build stopped after the direct visit of specX but before the redirected
one. -/
def lastWritePartial : BuildState :=
  Builder.buildLoop extLastWrite 2 (Builder.load extLastWrite (initBuildState specR) specR false)

def lastWriteFull : BuildState := Builder.build extLastWrite specR false 10

def specP : ModuleSpecifier := ⟨"https", "p/mod.ts"⟩

/-- A parser that rejects every source. -/
def extParseFail : Externals where
  parse := fun _ _ _ => Except.error "bad syntax"
  resolveImport := fun _ _ => Except.ok specB
  maybeResolver := Option.none
  loader := fun _ _ => Except.error "missing"
  mediaFromContentType := fun _ _ => MediaType.unknown
  mediaFrom := fun _ => MediaType.unknown

def respParseFail : LoadResponse := ⟨specP, Option.none, "src"⟩

def specT : ModuleSpecifier := ⟨"https", "p/types.d.ts"⟩

/-- A dependency whose maybe_type was already populated by an earlier
mechanism. -/
def depT : Dependency := ⟨Resolved.none, Resolved.specifier specT ⟨specP, ⟨0, 0⟩⟩, false⟩

def modTyped : Module := ⟨[("./x", depT)], Option.none, MediaType.typeScript, "S", specP⟩

/-- An ES import of the same literal ./x carrying an inline deno-types hint. -/
def pmHint : ParsedModule := ⟨[], [⟨"./x", ⟨2, 2⟩, false, Option.some ("./t2", ⟨3, 3⟩)⟩]⟩

def accTyped : BuildState × Module := (initBuildState specP, modTyped)

def specR2 : ModuleSpecifier := ⟨"https", "q/main.ts"⟩

def specA2 : ModuleSpecifier := ⟨"https", "q/a.ts"⟩

def specB2 : ModuleSpecifier := ⟨"https", "q/b.ts"⟩

def specC2 : ModuleSpecifier := ⟨"https", "q/c.ts"⟩

/-- A chain of redirects: the root imports ./a and ./c; the load of specA2
redirects to specB2, and the load of specC2 redirects back into specA2 with
parseable content, so a later visit installs a Module at specA2 itself. -/
def extRedirectChain : Externals where
  parse := fun _ source _ =>
    if source = "MAINQ" then
      Except.ok ⟨[], [⟨"./a", ⟨0, 0⟩, false, Option.none⟩, ⟨"./c", ⟨1, 1⟩, false, Option.none⟩]⟩
    else Except.ok emptyParsed
  resolveImport := fun s r =>
    if s = "./a" ∧ r = specR2 then Except.ok specA2
    else if s = "./c" ∧ r = specR2 then Except.ok specC2
    else Except.error "cannot resolve"
  maybeResolver := Option.none
  loader := fun s _ =>
    if s = specR2 then Except.ok (Option.some ⟨specR2, Option.none, "MAINQ"⟩)
    else if s = specA2 then Except.ok (Option.some ⟨specB2, Option.none, "FROMA"⟩)
    else if s = specC2 then Except.ok (Option.some ⟨specA2, Option.none, "FROMC"⟩)
    else Except.error "missing"
  mediaFromContentType := fun _ _ => MediaType.typeScript
  mediaFrom := fun _ => MediaType.typeScript

def chainBuild : BuildState := Builder.build extRedirectChain specR2 false 10

/-! ## Association-list lemmas -/

theorem alLookup_insert_self {K V : Type} [DecidableEq K] (k : K) (v : V) (m : List (K × V)) :
    alLookup k (alInsert k v m) = Option.some v := by
  induction m with
  | nil => simp [alInsert, alLookup]
  | cons p rest ih =>
    by_cases h : k = p.1
    · simp [alInsert, alLookup, h]
    · simp [alInsert, alLookup, h, ih]

theorem alLookup_insert_ne {K V : Type} [DecidableEq K] {k k' : K} (h : k ≠ k') (v : V)
    (m : List (K × V)) : alLookup k (alInsert k' v m) = alLookup k m := by
  induction m with
  | nil => simp [alInsert, alLookup, h]
  | cons p rest ih =>
    by_cases h2 : k' = p.1
    · have hk : k ≠ p.1 := fun he => h (he.trans h2.symm)
      simp [alInsert, alLookup, h2, h, hk]
    · simp [alInsert, alLookup, h2, ih]

theorem alContains_insert_self {K V : Type} [DecidableEq K] (k : K) (v : V) (m : List (K × V)) :
    alContains k (alInsert k v m) = true := by
  simp [alContains, alLookup_insert_self]

theorem alContains_insert_of {K V : Type} [DecidableEq K] {s k : K} {v : V} {m : List (K × V)}
    (h : alContains s m = true) : alContains s (alInsert k v m) = true := by
  by_cases hk : s = k
  · subst hk; exact alContains_insert_self s v m
  · simp only [alContains] at h ⊢
    rw [alLookup_insert_ne hk]
    exact h

theorem foldl_preserve {α β : Type} (P : α → Prop) (f : α → β → α)
    (h : ∀ a b, P a → P (f a b)) : ∀ (l : List β) (a : α), P a → P (List.foldl f a l) := by
  intro l
  induction l with
  | nil => intro a ha; exact ha
  | cons x xs ih => intro a ha; exact ih (f a x) (h a x ha)

/-! ## Preservation lemmas for the builder-state mutators -/

theorem load_redirects (ext : Externals) (st : BuildState) (s : ModuleSpecifier) (d : Bool) :
    (Builder.load ext st s d).graph.redirects = st.graph.redirects := by
  unfold Builder.load; split <;> rfl

theorem load_pend {a : ModuleSpecifier} (ext : Externals) (st : BuildState)
    (s : ModuleSpecifier) (d : Bool)
    (h : alLookup a st.graph.modules = Option.some ModuleSlot.pending) :
    alLookup a (Builder.load ext st s d).graph.modules = Option.some ModuleSlot.pending := by
  unfold Builder.load
  by_cases hc : alContains s st.graph.modules = true
  · rw [if_pos hc]; exact h
  · rw [if_neg hc]
    by_cases hsa : s = a
    · subst hsa
      exact absurd (by simp [alContains, h]) hc
    · show alLookup a (alInsert s ModuleSlot.pending st.graph.modules) = _
      rw [alLookup_insert_ne (fun he => hsa he.symm)]
      exact h

theorem load_LoadInv (ext : Externals) (st : BuildState) (s : ModuleSpecifier) (d : Bool)
    (h : LoadInv st) : LoadInv (Builder.load ext st s d) := by
  unfold Builder.load
  by_cases hc : alContains s st.graph.modules = true
  · rw [if_pos hc]; exact h
  · rw [if_neg hc]
    obtain ⟨hnd, hmem⟩ := h
    constructor
    · show ((st.loadLog ++ [(s, d)]).map Prod.fst).Nodup
      rw [List.map_append]
      refine List.Nodup.append hnd (List.nodup_singleton s) ?_
      intro x hx hx'
      simp only [List.map_cons, List.map_nil, List.mem_singleton] at hx'
      subst hx'
      exact hc (hmem x hx)
    · intro x hx
      rw [List.map_append] at hx
      rcases List.mem_append.mp hx with hx | hx
      · exact alContains_insert_of (hmem x hx)
      · simp only [List.map_cons, List.map_nil, List.mem_singleton] at hx
        subst hx
        exact alContains_insert_self x ModuleSlot.pending st.graph.modules

theorem resolveLoad_redirects (ext : Externals) (st : BuildState) (s : String)
    (r : ModuleSpecifier) (rg : Range) (d : Bool) :
    (Builder.resolveLoad ext st s r rg d).1.graph.redirects = st.graph.redirects := by
  unfold Builder.resolveLoad
  split
  · exact load_redirects ext st _ d
  · rfl

theorem resolveLoad_pend {a : ModuleSpecifier} (ext : Externals) (st : BuildState) (s : String)
    (r : ModuleSpecifier) (rg : Range) (d : Bool)
    (h : alLookup a st.graph.modules = Option.some ModuleSlot.pending) :
    alLookup a (Builder.resolveLoad ext st s r rg d).1.graph.modules =
      Option.some ModuleSlot.pending := by
  unfold Builder.resolveLoad
  split
  · exact load_pend ext st _ d h
  · exact h

theorem resolveLoad_LoadInv (ext : Externals) (st : BuildState) (s : String)
    (r : ModuleSpecifier) (rg : Range) (d : Bool) (h : LoadInv st) :
    LoadInv (Builder.resolveLoad ext st s r rg d).1 := by
  unfold Builder.resolveLoad
  split
  · exact load_LoadInv ext st _ d h
  · exact h

theorem visitTsReference_pres (ext : Externals) (P : BuildState → Prop)
    (hP : ∀ (st : BuildState) (s : String) (r : ModuleSpecifier) (rg : Range) (d : Bool),
      P st → P (Builder.resolveLoad ext st s r rg d).1) :
    ∀ (acc : BuildState × Module) (ref : TypeScriptReference),
      P acc.1 → P (visitTsReference ext acc ref).1 := by
  intro acc ref h
  cases ref with
  | path s rg => exact hP acc.1 s acc.2.specifier rg false h
  | types s rg => exact hP acc.1 s acc.2.specifier rg false h

theorem visitTypesHeader_pres (ext : Externals)
    (mh : Option (List (String × String))) (P : BuildState → Prop)
    (hP : ∀ (st : BuildState) (s : String) (r : ModuleSpecifier) (rg : Range) (d : Bool),
      P st → P (Builder.resolveLoad ext st s r rg d).1) :
    ∀ (acc : BuildState × Module), P acc.1 → P (visitTypesHeader ext mh acc).1 := by
  intro acc h
  unfold visitTypesHeader
  split
  · split
    · exact hP _ _ _ _ _ h
    · exact h
  · exact h

theorem denoTypesResolve_pres (ext : Externals) (P : BuildState → Prop)
    (hP : ∀ (st : BuildState) (s : String) (r : ModuleSpecifier) (rg : Range) (d : Bool),
      P st → P (Builder.resolveLoad ext st s r rg d).1)
    (st : BuildState) (referrer : ModuleSpecifier) (desc : DependencyDescriptor)
    (h : P st) : P (denoTypesResolve ext st referrer desc).1 := by
  unfold denoTypesResolve
  split
  · exact hP _ _ _ _ _ h
  · exact h

theorem visitDescriptor_pres (ext : Externals) (pm : ParsedModule) (P : BuildState → Prop)
    (hP : ∀ (st : BuildState) (s : String) (r : ModuleSpecifier) (rg : Range) (d : Bool),
      P st → P (Builder.resolveLoad ext st s r rg d).1) :
    ∀ (acc : BuildState × Module) (desc : DependencyDescriptor),
      P acc.1 → P (visitDescriptor ext pm acc desc).1 := by
  intro acc desc h
  exact denoTypesResolve_pres ext P hP _ acc.2.specifier desc (hP _ _ _ _ _ h)

theorem visitModule_pres (ext : Externals) (P : BuildState → Prop)
    (hP : ∀ (st : BuildState) (s : String) (r : ModuleSpecifier) (rg : Range) (d : Bool),
      P st → P (Builder.resolveLoad ext st s r rg d).1)
    (st : BuildState) (mh : Option (List (String × String))) (module0 : Module)
    (pm : ParsedModule) (h : P st) : P (Builder.visitModule ext st mh module0 pm).1 := by
  unfold Builder.visitModule
  refine foldl_preserve (fun acc => P acc.1) (visitDescriptor ext pm)
    (fun a b ha => visitDescriptor_pres ext pm P hP a b ha) pm.descriptors _ ?_
  refine visitTypesHeader_pres ext mh P hP _ ?_
  exact foldl_preserve (fun acc => P acc.1) (visitTsReference ext)
    (fun a b ha => visitTsReference_pres ext P hP a b ha) pm.ts_references (st, module0) h

theorem redirStep_modules (st : BuildState) (req : ModuleSpecifier) (resp : LoadResponse) :
    (redirStep st req resp).graph.modules = st.graph.modules := by
  unfold redirStep; split <;> rfl

theorem redirStep_pendingQ (st : BuildState) (req : ModuleSpecifier) (resp : LoadResponse) :
    (redirStep st req resp).pendingQ = st.pendingQ := by
  unfold redirStep; split <;> rfl

theorem redirStep_loadLog (st : BuildState) (req : ModuleSpecifier) (resp : LoadResponse) :
    (redirStep st req resp).loadLog = st.loadLog := by
  unfold redirStep; split <;> rfl

theorem redirStep_LoadInv (st : BuildState) (req : ModuleSpecifier) (resp : LoadResponse)
    (h : LoadInv st) : LoadInv (redirStep st req resp) := by
  unfold redirStep; split
  · exact h
  · exact h

theorem installSlot_LoadInv (st : BuildState) (s : ModuleSpecifier) (slot : ModuleSlot)
    (h : LoadInv st) : LoadInv (installSlot st s slot) := by
  obtain ⟨h1, h2⟩ := h
  exact ⟨h1, fun x hx => alContains_insert_of (h2 x hx)⟩

theorem visitCore_LoadInv (ext : Externals) (st : BuildState) (req : ModuleSpecifier)
    (resp : LoadResponse) (h : LoadInv st) : LoadInv (Builder.visitCore ext st req resp).1 := by
  unfold Builder.visitCore
  split
  · exact visitModule_pres ext LoadInv (resolveLoad_LoadInv ext) _ resp.maybe_headers
      (initModule ext resp) _ (redirStep_LoadInv st req resp h)
  · exact redirStep_LoadInv st req resp h

theorem visit_LoadInv (ext : Externals) (st : BuildState) (req : ModuleSpecifier)
    (resp : LoadResponse) (h : LoadInv st) : LoadInv (Builder.visit ext st req resp) :=
  installSlot_LoadInv _ _ _ (visitCore_LoadInv ext st req resp h)

theorem buildStep_LoadInv (ext : Externals) (st : BuildState)
    (item : ModuleSpecifier × LoadResult) (h : LoadInv st) :
    LoadInv (Builder.buildStep ext st item) := by
  unfold Builder.buildStep
  split
  · exact visit_LoadInv ext st item.1 _ h
  · exact installSlot_LoadInv st item.1 ModuleSlot.missing h
  · exact installSlot_LoadInv st item.1 _ h

theorem popQ_LoadInv (st : BuildState) (rest : List (ModuleSpecifier × LoadResult))
    (h : LoadInv st) : LoadInv { st with pendingQ := rest } := h

theorem buildLoop_LoadInv (ext : Externals) :
    ∀ (fuel : Nat) (st : BuildState), LoadInv st → LoadInv (Builder.buildLoop ext fuel st) := by
  intro fuel
  induction fuel with
  | zero => intro st h; exact h
  | succ n ih =>
    intro st h
    unfold Builder.buildLoop
    split
    · exact h
    · exact ih _ (buildStep_LoadInv ext _ _ (popQ_LoadInv st _ h))

/-! ## The claims -/

/-- Claim C7: Builder::load is a no-op whenever a slot of any state already
exists for the specifier, otherwise it inserts a Pending slot and pushes the
load future, so over a whole build at most one load is ever issued per
distinct specifier (the issued-load log has pairwise distinct specifiers). -/
theorem claim_C7 :
    (∀ (ext : Externals) (st : BuildState) (s : ModuleSpecifier) (d : Bool),
      alContains s st.graph.modules = true → Builder.load ext st s d = st) ∧
    (∀ (ext : Externals) (st : BuildState) (s : ModuleSpecifier) (d : Bool),
      alContains s st.graph.modules = false →
      (Builder.load ext st s d).graph.modules = alInsert s ModuleSlot.pending st.graph.modules ∧
      (Builder.load ext st s d).pendingQ = st.pendingQ ++ [(s, ext.loader s d)] ∧
      (Builder.load ext st s d).loadLog = st.loadLog ++ [(s, d)]) ∧
    (∀ (ext : Externals) (root : ModuleSpecifier) (dyn : Bool) (fuel : Nat),
      ((Builder.build ext root dyn fuel).loadLog.map Prod.fst).Nodup) := by
  refine ⟨?_, ?_, ?_⟩
  · intro ext st s d h
    unfold Builder.load; rw [if_pos h]
  · intro ext st s d h
    have h' : ¬(alContains s st.graph.modules = true) := by simp [h]
    unfold Builder.load; rw [if_neg h']
    exact ⟨rfl, rfl, rfl⟩
  · intro ext root dyn fuel
    have hinit : LoadInv (initBuildState root) :=
      ⟨List.nodup_nil, fun s hs => absurd hs (List.not_mem_nil s)⟩
    exact (buildLoop_LoadInv ext fuel _ (load_LoadInv ext _ root dyn hinit)).1

theorem claim_C7_witness :
    Builder.load extRedirect stBeforeVisit specA false = stBeforeVisit ∧
    (Builder.load extRedirect (initBuildState specA) specA false).loadLog =
      (initBuildState specA).loadLog ++ [(specA, false)] :=
  ⟨claim_C7.1 extRedirect stBeforeVisit specA false (by decide),
   (claim_C7.2.1 extRedirect (initBuildState specA) specA false (by decide)).2.2⟩

/-- Claim C1 (code bug): the claim asserts that no slot is still Pending when
build() returns, explicitly including an originally-requested specifier whose
load response redirected.  The code violates this: visit installs the
computed slot only at the effective specifier (graph.rs line 409) and never
replaces the requested specifier's Pending reservation, so after a build whose
root load redirects, the root's slot is still Pending while the build has
terminated (empty pending set) and the redirect was recorded. -/
theorem claim_C1_bug :
    graphRedirect.pendingQ = [] ∧
    alLookup specA graphRedirect.graph.modules = Option.some ModuleSlot.pending ∧
    isModuleOrParseErr ((alLookup specRedir graphRedirect.graph.modules).getD ModuleSlot.pending)
      = true ∧
    alLookup specA graphRedirect.graph.redirects = Option.some specRedir := by
  refine ⟨by decide, by decide, by decide, by decide⟩

/-- Claim C4 (code bug): the spec scenario (root statically importing ./b.ts
and dynamically importing ./c.ts) produces the three expected slots, the two
expected dependency keys and both maybe_code resolutions, but the is_dynamic
field of the ./c.ts dependency is false, not true as claimed: graph.rs never
assigns Dependency::is_dynamic (it keeps its Default false), although the
descriptor's dynamic flag exists and is threaded into resolve_load. -/
theorem claim_C4_bug :
    graphScenario.pendingQ = [] ∧
    graphScenario.graph.modules.map Prod.fst = [specMod, specB, specC] ∧
    (depsOf graphScenario specMod).map Prod.fst = ["./b.ts", "./c.ts"] ∧
    depCodeIsSpecifier (depsOf graphScenario specMod) "./b.ts" = Option.some true ∧
    depCodeIsSpecifier (depsOf graphScenario specMod) "./c.ts" = Option.some true ∧
    depIsDynamic (depsOf graphScenario specMod) "./b.ts" = Option.some false ∧
    depIsDynamic (depsOf graphScenario specMod) "./c.ts" = Option.some false := by
  refine ⟨by decide, by decide, by decide, by decide, by decide, by decide, by decide⟩

/-- Claim C10: visit installs its computed slot at the effective specifier
unconditionally, overwriting whatever slot that specifier already holds (last
writer wins); concretely, when specX is loaded directly and a later load of
specY redirects to specX, specX's Module slot holds the first response's
content mid-build and the second response's content at the end. -/
theorem claim_C10 :
    (∀ (ext : Externals) (st : BuildState) (req : ModuleSpecifier) (resp : LoadResponse),
      alLookup resp.specifier (Builder.visit ext st req resp).graph.modules =
        Option.some (Builder.visitCore ext st req resp).2) ∧
    sourceAt lastWritePartial specX = Option.some "X1" ∧
    sourceAt lastWriteFull specX = Option.some "X2" ∧
    alLookup specY lastWriteFull.graph.redirects = Option.some specX := by
  refine ⟨?_, by decide, by decide, by decide⟩
  intro ext st req resp
  exact alLookup_insert_self resp.specifier (Builder.visitCore ext st req resp).2
    (Builder.visitCore ext st req resp).1.graph.modules

/-- Claim C5: whenever the referrer's scheme is https and the successfully
produced target's scheme is http, resolve returns
Resolved::Err(InvalidDowngrade) carrying the referrer and range, both without
and with a custom resolver configured. -/
theorem claim_C5 :
    (∀ (ext : Externals) (s : String) (r : ModuleSpecifier) (rg : Range)
      (target : ModuleSpecifier),
      ext.maybeResolver = Option.none → ext.resolveImport s r = Except.ok target →
      r.scheme = "https" → target.scheme = "http" →
      Builder.resolve ext s r rg = Resolved.err ResolutionError.invalidDowngrade ⟨r, rg⟩) ∧
    (∀ (ext : Externals) (s : String) (r : ModuleSpecifier) (rg : Range)
      (target : ModuleSpecifier) (f : String → ModuleSpecifier → Except String ModuleSpecifier),
      ext.maybeResolver = Option.some f → f s r = Except.ok target →
      r.scheme = "https" → target.scheme = "http" →
      Builder.resolve ext s r rg = Resolved.err ResolutionError.invalidDowngrade ⟨r, rg⟩) := by
  constructor
  · intro ext s r rg target hres himp hr ht
    simp only [Builder.resolve, hres, himp, Except.mapError, resolveStage2]
    rw [if_pos ⟨hr, ht⟩]
  · intro ext s r rg target f hres himp hr ht
    simp only [Builder.resolve, hres, himp, Except.mapError, resolveStage2]
    rw [if_pos ⟨hr, ht⟩]

theorem claim_C5_witness :
    Builder.resolve extDowngrade "i" specA rg0 =
      Resolved.err ResolutionError.invalidDowngrade ⟨specA, rg0⟩ :=
  claim_C5.1 extDowngrade "i" specA rg0 specHttp rfl rfl rfl rfl

/-- Claim C6: an import from a remote (http/https) referrer whose successfully
produced target has a non-remote scheme resolves to
Resolved::Err(InvalidLocalImport) when no custom resolver is configured, and
to Resolved::Specifier when one is (any configured resolver marks the
resolution as remapped, waiving the local-escape policy). -/
theorem claim_C6 :
    (∀ (ext : Externals) (s : String) (r : ModuleSpecifier) (rg : Range)
      (target : ModuleSpecifier),
      ext.maybeResolver = Option.none → ext.resolveImport s r = Except.ok target →
      (r.scheme = "https" ∨ r.scheme = "http") →
      ¬(target.scheme = "https" ∨ target.scheme = "http") →
      Builder.resolve ext s r rg = Resolved.err ResolutionError.invalidLocalImport ⟨r, rg⟩) ∧
    (∀ (ext : Externals) (s : String) (r : ModuleSpecifier) (rg : Range)
      (target : ModuleSpecifier) (f : String → ModuleSpecifier → Except String ModuleSpecifier),
      ext.maybeResolver = Option.some f → f s r = Except.ok target →
      (r.scheme = "https" ∨ r.scheme = "http") →
      ¬(target.scheme = "https" ∨ target.scheme = "http") →
      Builder.resolve ext s r rg = Resolved.specifier target ⟨r, rg⟩) := by
  constructor
  · intro ext s r rg target hres himp hr ht
    simp only [Builder.resolve, hres, himp, Except.mapError, resolveStage2]
    rw [if_neg (fun hcon => ht (Or.inr hcon.2)), if_pos (by exact ⟨hr, ht, by simp⟩)]
  · intro ext s r rg target f hres himp hr ht
    simp only [Builder.resolve, hres, himp, Except.mapError, resolveStage2]
    rw [if_neg (fun hcon => ht (Or.inr hcon.2)),
      if_neg (fun hcon => by simpa using hcon.2.2)]

theorem claim_C6_witness :
    Builder.resolve extLocalDefault "i" specA rg0 =
      Resolved.err ResolutionError.invalidLocalImport ⟨specA, rg0⟩ ∧
    Builder.resolve extLocalResolver "i" specA rg0 = Resolved.specifier specFile ⟨specA, rg0⟩ :=
  ⟨claim_C6.1 extLocalDefault "i" specA rg0 specFile rfl rfl (Or.inl rfl) (by decide),
   claim_C6.2 extLocalResolver "i" specA rg0 specFile (fun _ _ => Except.ok specFile) rfl rfl
     (Or.inl rfl) (by decide)⟩

theorem visitCore_redirects (ext : Externals) (st : BuildState) {req : ModuleSpecifier}
    (resp : LoadResponse) (hne : req ≠ resp.specifier) :
    (Builder.visitCore ext st req resp).1.graph.redirects =
      alInsert req resp.specifier st.graph.redirects := by
  have hredir : (redirStep st req resp).graph.redirects =
      alInsert req resp.specifier st.graph.redirects := by
    unfold redirStep; rw [if_pos hne]
  unfold Builder.visitCore
  split
  · exact visitModule_pres ext
      (fun st' => st'.graph.redirects = alInsert req resp.specifier st.graph.redirects)
      (fun st' s r rg d h => by
        show (Builder.resolveLoad ext st' s r rg d).1.graph.redirects = _
        rw [resolveLoad_redirects ext st' s r rg d]
        exact h)
      _ resp.maybe_headers (initModule ext resp) _ hredir
  · exact hredir

theorem visitCore_pend (ext : Externals) (st : BuildState) (a req : ModuleSpecifier)
    (resp : LoadResponse)
    (hpend : alLookup a st.graph.modules = Option.some ModuleSlot.pending) :
    alLookup a (Builder.visitCore ext st req resp).1.graph.modules =
      Option.some ModuleSlot.pending := by
  have hred : alLookup a (redirStep st req resp).graph.modules =
      Option.some ModuleSlot.pending := by
    rw [redirStep_modules]; exact hpend
  unfold Builder.visitCore
  split
  · exact visitModule_pres ext
      (fun st' => alLookup a st'.graph.modules = Option.some ModuleSlot.pending)
      (fun st' s r rg d h => resolveLoad_pend ext st' s r rg d h)
      _ resp.maybe_headers (initModule ext resp) _ hred
  · exact hred

theorem visitCore_slot (ext : Externals) (st : BuildState) (req : ModuleSpecifier)
    (resp : LoadResponse) :
    isModuleOrParseErr (Builder.visitCore ext st req resp).2 = true := by
  unfold Builder.visitCore
  split
  · rfl
  · rfl

/-- Claim C2 as amended: when a load requested for specifier a reports a
different effective specifier (a redirect), then at the completion of that
load's visit step — where a's slot still holds the loop's Pending
reservation — visit has recorded the redirect entry a to response.specifier,
installed the computed Module-or-parse-error slot under the effective
specifier, and a's own slot is not a Module slot.  The original post-build
phrasing is false of the code (claim_C2_counterexample): a later response
whose effective specifier is a itself installs a Module slot at a. -/
theorem claim_C2 (ext : Externals) (st : BuildState) (a : ModuleSpecifier)
    (resp : LoadResponse) (hne : a ≠ resp.specifier)
    (hpend : alLookup a st.graph.modules = Option.some ModuleSlot.pending) :
    alLookup a (Builder.visit ext st a resp).graph.redirects = Option.some resp.specifier ∧
    alLookup resp.specifier (Builder.visit ext st a resp).graph.modules =
      Option.some (Builder.visitCore ext st a resp).2 ∧
    isModuleOrParseErr (Builder.visitCore ext st a resp).2 = true ∧
    slotIsModule (alLookup a (Builder.visit ext st a resp).graph.modules) = false := by
  refine ⟨?_, ?_, visitCore_slot ext st a resp, ?_⟩
  · show alLookup a (Builder.visitCore ext st a resp).1.graph.redirects = _
    rw [visitCore_redirects ext st resp hne, alLookup_insert_self]
  · exact alLookup_insert_self _ _ _
  · have hp : alLookup a (Builder.visit ext st a resp).graph.modules =
        Option.some ModuleSlot.pending := by
      show alLookup a (alInsert resp.specifier (Builder.visitCore ext st a resp).2
        (Builder.visitCore ext st a resp).1.graph.modules) = _
      rw [alLookup_insert_ne hne]
      exact visitCore_pend ext st a a resp hpend
    rw [hp]; rfl

theorem claim_C2_witness :
    alLookup specA (Builder.visit extRedirect stBeforeVisit specA respRedirect).graph.redirects =
      Option.some respRedirect.specifier ∧
    alLookup respRedirect.specifier
      (Builder.visit extRedirect stBeforeVisit specA respRedirect).graph.modules =
      Option.some (Builder.visitCore extRedirect stBeforeVisit specA respRedirect).2 ∧
    isModuleOrParseErr (Builder.visitCore extRedirect stBeforeVisit specA respRedirect).2 = true ∧
    slotIsModule
      (alLookup specA (Builder.visit extRedirect stBeforeVisit specA respRedirect).graph.modules)
      = false :=
  claim_C2 extRedirect stBeforeVisit specA respRedirect (by decide) (by decide)

/-- Claim C2, counterexample to the original post-build statement: in
chainBuild the load requested for specA2 reports the different effective
specifier specB2, and after build() terminates (empty pending set) the
redirect entry specA2 to specB2 is present — yet specA2's slot IS a Module
slot, because the later load of specC2 redirected into specA2 and its visit
installed a Module there.  So "A's slot is not a Module slot" does not hold
after build() for every redirected load. -/
theorem claim_C2_counterexample :
    extRedirectChain.loader specA2 false =
      Except.ok (Option.some ⟨specB2, Option.none, "FROMA"⟩) ∧
    specB2 ≠ specA2 ∧
    chainBuild.pendingQ = [] ∧
    alLookup specA2 chainBuild.graph.redirects = Option.some specB2 ∧
    slotIsModule (alLookup specA2 chainBuild.graph.modules) = true := by
  refine ⟨by decide, by decide, by decide, by decide, by decide⟩

theorem is_none_false {t : Resolved} (ht : ¬t = Resolved.none) : Resolved.is_none t = false := by
  cases t with
  | specifier a b => rfl
  | err a b => rfl
  | none => exact absurd rfl ht

theorem visitTypesHeader_deps (ext : Externals) (mh : Option (List (String × String)))
    (acc : BuildState × Module) :
    (visitTypesHeader ext mh acc).2.dependencies = acc.2.dependencies := by
  unfold visitTypesHeader
  split
  · split
    · rfl
    · rfl
  · rfl

theorem descUpdate_type_pres (module : Module) (desc : DependencyDescriptor)
    (rc mt : Resolved) (key : String) (d : Dependency)
    (hd : alLookup key module.dependencies = Option.some d)
    (ht : ¬d.maybe_type = Resolved.none) :
    ∃ d', alLookup key (descUpdate module desc rc mt).dependencies = Option.some d' ∧
      d'.maybe_type = d.maybe_type := by
  by_cases hk : desc.specifier = key
  · subst hk
    refine ⟨{ d with maybe_code := rc }, ?_, rfl⟩
    simp only [descUpdate, hd, Option.getD_some]
    rw [if_neg (fun hcon => by rw [is_none_false ht] at hcon; exact Bool.false_ne_true hcon)]
    exact alLookup_insert_self _ _ _
  · refine ⟨d, ?_, rfl⟩
    simp only [descUpdate]
    rw [alLookup_insert_ne (fun he => hk he.symm), alLookup_insert_ne (fun he => hk he.symm)]
    exact hd

theorem visitDescriptor_type_pres (ext : Externals) (pm : ParsedModule) (key : String)
    (t : Resolved) (ht : ¬t = Resolved.none) :
    ∀ (acc : BuildState × Module) (desc : DependencyDescriptor),
      (∃ d, alLookup key acc.2.dependencies = Option.some d ∧ d.maybe_type = t) →
      ∃ d, alLookup key (visitDescriptor ext pm acc desc).2.dependencies = Option.some d ∧
        d.maybe_type = t := by
  intro acc desc h
  obtain ⟨d, hd, hdt⟩ := h
  have ht' : ¬d.maybe_type = Resolved.none := by rw [hdt]; exact ht
  obtain ⟨d', hd', hdt'⟩ := descUpdate_type_pres acc.2 desc
    (Builder.resolveLoad ext acc.1 desc.specifier acc.2.specifier
      (pm.range_from_span desc.specifier_span) desc.is_dynamic).2
    (denoTypesResolve ext
      (Builder.resolveLoad ext acc.1 desc.specifier acc.2.specifier
        (pm.range_from_span desc.specifier_span) desc.is_dynamic).1
      acc.2.specifier desc).2
    key d hd ht'
  exact ⟨d', hd', hdt'.trans hdt⟩

/-- Claim C3: within one visit, a later extraction mechanism never overwrites
an already-populated maybe_type: the header mechanism never touches the
per-dependency map at all, and the ES-import mechanism (including its inline
deno-types hints) preserves every dependency whose maybe_type is non-None. -/
theorem claim_C3 (ext : Externals) (mh : Option (List (String × String))) (pm : ParsedModule)
    (acc : BuildState × Module) (key : String) (d : Dependency)
    (hlook : alLookup key acc.2.dependencies = Option.some d)
    (hne : ¬d.maybe_type = Resolved.none) :
    (visitTypesHeader ext mh acc).2.dependencies = acc.2.dependencies ∧
    ∃ d', alLookup key (List.foldl (visitDescriptor ext pm) acc pm.descriptors).2.dependencies =
        Option.some d' ∧ d'.maybe_type = d.maybe_type := by
  refine ⟨visitTypesHeader_deps ext mh acc, ?_⟩
  exact foldl_preserve
    (fun a => ∃ d', alLookup key a.2.dependencies = Option.some d' ∧
      d'.maybe_type = d.maybe_type)
    (visitDescriptor ext pm)
    (fun a b ha => visitDescriptor_type_pres ext pm key d.maybe_type hne a b ha)
    pm.descriptors acc ⟨d, hlook, rfl⟩

theorem claim_C3_witness :
    (visitTypesHeader extRedirect Option.none accTyped).2.dependencies =
      accTyped.2.dependencies ∧
    ∃ d', alLookup "./x"
        (List.foldl (visitDescriptor extRedirect pmHint) accTyped pmHint.descriptors).2.dependencies =
        Option.some d' ∧ d'.maybe_type = depT.maybe_type :=
  claim_C3 extRedirect Option.none pmHint accTyped "./x" depT (by decide) (by decide)

/-- Claim C8: when the parser rejects a module's source, visit only records the
redirect (if any) and installs Err(ParseErr(diagnostic)) at the effective
specifier; no dependency extraction happens for that module, observable as an
unchanged pending-load set and issued-load log, so the build goes on with the
other modules. -/
theorem claim_C8 (ext : Externals) (st : BuildState) (req : ModuleSpecifier)
    (resp : LoadResponse) (d : Diagnostic)
    (hparse : parseOf ext resp = Except.error d) :
    Builder.visit ext st req resp =
      installSlot (redirStep st req resp) resp.specifier
        (ModuleSlot.err (ModuleGraphError.parseErr d)) ∧
    (Builder.visit ext st req resp).pendingQ = st.pendingQ ∧
    (Builder.visit ext st req resp).loadLog = st.loadLog := by
  have hc : Builder.visitCore ext st req resp =
      (redirStep st req resp, ModuleSlot.err (ModuleGraphError.parseErr d)) := by
    unfold Builder.visitCore
    rw [hparse]
  have hv : Builder.visit ext st req resp =
      installSlot (redirStep st req resp) resp.specifier
        (ModuleSlot.err (ModuleGraphError.parseErr d)) := by
    unfold Builder.visit
    rw [hc]
  refine ⟨hv, ?_, ?_⟩
  · rw [hv]
    show (redirStep st req resp).pendingQ = st.pendingQ
    exact redirStep_pendingQ st req resp
  · rw [hv]
    show (redirStep st req resp).loadLog = st.loadLog
    exact redirStep_loadLog st req resp

theorem claim_C8_witness :
    Builder.visit extParseFail (initBuildState specP) specP respParseFail =
      installSlot (redirStep (initBuildState specP) specP respParseFail)
        respParseFail.specifier
        (ModuleSlot.err (ModuleGraphError.parseErr "bad syntax")) ∧
    (Builder.visit extParseFail (initBuildState specP) specP respParseFail).pendingQ =
      (initBuildState specP).pendingQ ∧
    (Builder.visit extParseFail (initBuildState specP) specP respParseFail).loadLog =
      (initBuildState specP).loadLog :=
  claim_C8 extParseFail (initBuildState specP) specP respParseFail "bad syntax" rfl

theorem lockLoop_eq {σ : Type} (f : σ → ModuleSpecifier → String → Bool × σ) :
    ∀ (entries : List (ModuleSpecifier × ModuleSlot)) (st : σ),
      lockLoop f st entries =
        (match firstFailing f st (modulesOf entries) with
         | Option.some s => Except.error (ModuleGraphError.invalidSource s)
         | Option.none => Except.ok Unit.unit) := by
  intro entries
  induction entries with
  | nil => intro st; rfl
  | cons p rest ih =>
    intro st
    obtain ⟨sp, slot⟩ := p
    cases slot with
    | module m =>
      by_cases hchk : (f st m.specifier m.source).1 = true
      · simp only [lockLoop, modulesOf, firstFailing, hchk, if_pos]
        exact ih _
      · simp [lockLoop, modulesOf, firstFailing, hchk]
    | err e => simpa only [lockLoop, modulesOf] using ih st
    | missing => simpa only [lockLoop, modulesOf] using ih st
    | pending => simpa only [lockLoop, modulesOf] using ih st

theorem firstFailing_none_iff {σ : Type} (f : σ → ModuleSpecifier → String → Bool × σ) :
    ∀ (ms : List Module) (st : σ),
      firstFailing f st ms = Option.none ↔ checkAll f st ms = true := by
  intro ms
  induction ms with
  | nil => intro st; simp [firstFailing, checkAll]
  | cons m rest ih =>
    intro st
    by_cases hchk : (f st m.specifier m.source).1 = true
    · simp only [firstFailing, checkAll, hchk, if_pos]
      exact ih _
    · simp [firstFailing, checkAll, hchk]

/-- Claim C9: lock() returns Ok when no locker is configured; with a locker it
consults check_or_insert exactly for the Module slots in order (Err, Missing
and Pending slots are skipped, so the outcome is determined by the Module
slots alone): it succeeds iff every checked module passes and it returns
Err(InvalidSource(s)) exactly when s is the first checked module that fails. -/
theorem claim_C9 :
    (∀ (σ : Type) (g : ModuleGraph),
      ModuleGraph.lock g
        (Option.none : Option ((σ → ModuleSpecifier → String → Bool × σ) × σ)) =
        Except.ok Unit.unit) ∧
    (∀ (σ : Type) (f : σ → ModuleSpecifier → String → Bool × σ) (st : σ) (g : ModuleGraph),
      (ModuleGraph.lock g (Option.some (f, st)) = Except.ok Unit.unit ↔
        checkAll f st (modulesOf g.modules) = true) ∧
      (∀ s, ModuleGraph.lock g (Option.some (f, st)) =
          Except.error (ModuleGraphError.invalidSource s) ↔
        firstFailing f st (modulesOf g.modules) = Option.some s)) := by
  refine ⟨fun σ g => rfl, fun σ f st g => ⟨?_, fun s => ?_⟩⟩
  · show lockLoop f st g.modules = Except.ok Unit.unit ↔ _
    rw [lockLoop_eq]
    cases hff : firstFailing f st (modulesOf g.modules) with
    | none => simp [(firstFailing_none_iff f (modulesOf g.modules) st).mp hff]
    | some s0 =>
      constructor
      · intro hc; exact absurd hc (by simp)
      · intro hc
        have : firstFailing f st (modulesOf g.modules) = Option.none :=
          (firstFailing_none_iff f (modulesOf g.modules) st).mpr hc
        rw [hff] at this
        exact absurd this (by simp)
  · show lockLoop f st g.modules = Except.error (ModuleGraphError.invalidSource s) ↔ _
    rw [lockLoop_eq]
    cases hff : firstFailing f st (modulesOf g.modules) with
    | none => simp
    | some s0 => simp [eq_comm]

end DenoGraph
